import Mathlib

/-! Rainbow triangle: render loop and GPU-resource lifecycle.

A shallow embedding of `color_triangle/source/triangle.cpp`.

The program is a straight-line sequence of GLFW / OpenGL calls followed by a
render loop.  It is embedded as a function from an explicit environment (what
the platform, the file system, the GL driver and the user answer) to the trace
of library calls the program issues, together with the way the run ended.

* Machine integers: every integer the program handles is far below any word
  size (the largest is `24 * 36 = 864`), so `Nat` / `Int` are used directly.
* Floating point: the only floating-point values the program stores are the
  literals `-1.0`, `0.0` and `1.0`, which are exact; a `GLfloat` is embedded as
  the integer it denotes.  The clock read by `animate` is embedded as the
  outcome of its one comparison.
-/

namespace Triangle

/-! ## Data model -/

/-- A `GLfloat` holding one of the exactly representable literals of the program. -/
abbrev GLfloat := Int

/-- Size in bytes of a `GLfloat` (a 32-bit float in every OpenGL binding). -/
def sizeof_GLfloat : Nat := 4

/-- Modelled from the spec: `common/Angel.h` is absent.  Section 3 describes a
vertex position as a 2-component floating-point coordinate. -/
structure vec2 where
  x : GLfloat
  y : GLfloat
  deriving DecidableEq

/-- Modelled from the spec: `common/Angel.h` is absent.  Section 3 describes a
vertex color as a 3-component floating-point RGB value. -/
structure vec3 where
  x : GLfloat
  y : GLfloat
  z : GLfloat
  deriving DecidableEq

/-- Modelled from the spec: `sizeof(vec2)`, two floating-point components. -/
def sizeof_vec2 : Nat := 2 * sizeof_GLfloat

/-- Modelled from the spec: `sizeof(vec3)`, three floating-point components. -/
def sizeof_vec3 : Nat := 3 * sizeof_GLfloat

/-- One byte of client or GPU memory: either never written, or byte `k` of the
4-byte representation of the float `v`. -/
inductive Byte where
  | uninit
  | ofFloat (v : GLfloat) (k : Nat)
  deriving DecidableEq

/-- The four bytes of a float, in memory order. -/
def bytesOfFloat (v : GLfloat) : List Byte :=
  [Byte.ofFloat v 0, Byte.ofFloat v 1, Byte.ofFloat v 2, Byte.ofFloat v 3]

/-- Memory image of a `vec2`: `x` then `y`. -/
def bytesOfVec2 (p : vec2) : List Byte :=
  bytesOfFloat p.x ++ bytesOfFloat p.y

/-- Memory image of a `vec3`: `x`, `y`, `z`. -/
def bytesOfVec3 (c : vec3) : List Byte :=
  bytesOfFloat c.x ++ bytesOfFloat c.y ++ bytesOfFloat c.z

/-- Memory image of a `vec2` array. -/
def bytesOfVec2s (ps : List vec2) : List Byte :=
  ps.flatMap bytesOfVec2

/-- Memory image of a `vec3` array. -/
def bytesOfVec3s (cs : List vec3) : List Byte :=
  cs.flatMap bytesOfVec3

/-- Reads one float back from memory: the next four bytes must be bytes 0..3 of
one and the same float. -/
def readFloat : List Byte → Option (GLfloat × List Byte)
  | Byte.ofFloat a 0 :: Byte.ofFloat b 1 :: Byte.ofFloat c 2 :: Byte.ofFloat d 3 :: rest =>
    if a = b ∧ b = c ∧ c = d then some (a, rest) else none
  | _ => none

/-- Reads `n` two-component positions back from memory. -/
def readVec2s : Nat → List Byte → Option (List vec2)
  | 0, _ => some []
  | n + 1, bs =>
    match readFloat bs with
    | none => none
    | some (x, bs1) =>
      match readFloat bs1 with
      | none => none
      | some (y, bs2) =>
        match readVec2s n bs2 with
        | none => none
        | some ps => some (⟨x, y⟩ :: ps)

/-- Reads `n` three-component colors back from memory. -/
def readVec3s : Nat → List Byte → Option (List vec3)
  | 0, _ => some []
  | n + 1, bs =>
    match readFloat bs with
    | none => none
    | some (x, bs1) =>
      match readFloat bs1 with
      | none => none
      | some (y, bs2) =>
        match readFloat bs2 with
        | none => none
        | some (z, bs3) =>
          match readVec3s n bs3 with
          | none => none
          | some cs => some (⟨x, y, z⟩ :: cs)

/-! ## Library constants -/

/-- The OpenGL enumerants the program passes. -/
inductive GLenum where
  | GL_VERTEX_SHADER
  | GL_FRAGMENT_SHADER
  | GL_ARRAY_BUFFER
  | GL_STATIC_DRAW
  | GL_FLOAT
  | GL_TRIANGLES
  | GL_COLOR_BUFFER_BIT
  deriving DecidableEq

/-- The GLFW window hints the program sets. -/
inductive GLFWhint where
  | GLFW_CONTEXT_VERSION_MAJOR
  | GLFW_CONTEXT_VERSION_MINOR
  | GLFW_OPENGL_FORWARD_COMPAT
  | GLFW_OPENGL_PROFILE
  | GLFW_SAMPLES
  deriving DecidableEq

/-- Value of `GL_TRUE`. -/
def GL_TRUE : Int := 1
/-- Value of `GLFW_OPENGL_CORE_PROFILE` in `glfw3.h`. -/
def GLFW_OPENGL_CORE_PROFILE : Int := 0x00032001
/-- Value of `GLFW_KEY_ESCAPE` in `glfw3.h`. -/
def GLFW_KEY_ESCAPE : Int := 256
/-- Value of `GLFW_RELEASE` in `glfw3.h`. -/
def GLFW_RELEASE : Int := 0
/-- Value of `GLFW_PRESS` in `glfw3.h`. -/
def GLFW_PRESS : Int := 1
/-- Value of `GLFW_REPEAT` in `glfw3.h`. -/
def GLFW_REPEAT : Int := 2
/-- Process status `EXIT_SUCCESS`. -/
def EXIT_SUCCESS : Int := 0
/-- Process status `EXIT_FAILURE`. -/
def EXIT_FAILURE : Int := 1

/-- Conversion of a `GLint` to the `GLuint` parameter of
`glEnableVertexAttribArray` / `glVertexAttribPointer`. -/
def toGLuint (i : Int) : Nat := (i % 2 ^ 32).toNat

/-- Modelled from the spec: the macro `BUFFER_OFFSET` of `common/Angel.h` is
absent.  Section 4.2 gives `configureAttribute` a byte offset into the bound
buffer; the macro passes that offset on as the pointer argument. -/
def BUFFER_OFFSET (offset : Nat) : Nat := offset

/-! ## Traces -/

/-- One call into GLFW, OpenGL, the shader loader or the C runtime, with its
arguments and, where the program uses it, the value the library returned. -/
inductive Call where
  | stderr (text : String)
  | exit (status : Int)
  | glfwSetErrorCallback
  | glfwInit (ret : Bool)
  | glfwWindowHint (hint : GLFWhint) (value : Int)
  | glfwCreateWindow (width height : Int) (title : String) (ret : Bool)
  | glfwTerminate
  | glfwSetKeyCallback
  | glfwMakeContextCurrent
  | gladLoadGLLoader
  | glfwSwapInterval (interval : Int)
  | readShaderSource (file : String) (ret : Option String)
  | glCreateShader (kind : GLenum) (ret : Nat)
  | glShaderSource (shader : Nat) (source : String)
  | glCompileShader (shader : Nat)
  | check_shader_compilation (file : String) (shader : Nat) (compiled : Bool)
  | glCreateProgram (ret : Nat)
  | glAttachShader (program shader : Nat)
  | glLinkProgram (program : Nat)
  | check_program_link (program : Nat) (linked : Bool)
  | glBindFragDataLocation (program : Nat) (color : Nat) (name : String)
  | glGetAttribLocation (program : Nat) (name : String) (ret : Int)
  | glGenVertexArrays (ret : Nat)
  | glBindVertexArray (array : Nat)
  | glGenBuffers (ret : Nat)
  | glBindBuffer (target : GLenum) (buffer : Nat)
  | glBufferData (target : GLenum) (size : Nat) (data : Option (List Byte)) (usage : GLenum)
  | glBufferSubData (target : GLenum) (offset size : Nat) (data : List Byte)
  | glEnableVertexAttribArray (index : Nat)
  | glVertexAttribPointer (index : Nat) (size : Int) (type : GLenum) (normalized : Bool)
      (stride : Int) (pointer : Nat)
  | glClearColor (red green blue alpha : GLfloat)
  | glfwWindowShouldClose (ret : Bool)
  | glfwGetFramebufferSize (width height : Int)
  | glViewport (x y width height : Int)
  | glfwGetTime (over : Bool)
  | glfwSetTime (time : GLfloat)
  | glClear (mask : GLenum)
  | glUseProgram (program : Nat)
  | glDrawArrays (mode : GLenum) (first count : Int)
  | glfwSwapBuffers
  | glfwPollEvents
  | glfwSetWindowShouldClose (value : Bool)
  | glfwDestroyWindow
  deriving DecidableEq

/-- How a (prefix of a) run ended. -/
inductive Status (α : Type) where
  | ret (a : α)
  | exited (status : Int)
  | running
  deriving DecidableEq

/-- A run of a piece of the program: the calls it issued, and whether it
returned a value, left the process through `exit`, or is still inside the
render loop when the recorded observations end. -/
structure Proc (α : Type) where
  trace : List Call
  status : Status α
  deriving DecidableEq

/-- Sequencing: the continuation runs only when the first part returned. -/
def Proc.bind {α β : Type} (m : Proc α) (f : α → Proc β) : Proc β :=
  match m.status with
  | Status.ret a => ⟨m.trace ++ (f a).trace, (f a).status⟩
  | Status.exited s => ⟨m.trace, Status.exited s⟩
  | Status.running => ⟨m.trace, Status.running⟩

instance : Monad Proc where
  pure a := ⟨[], Status.ret a⟩
  bind := Proc.bind

/-- Issues one call. -/
def emit (c : Call) : Proc Unit := ⟨[c], Status.ret ()⟩

/-- The C runtime's `exit`: the process ends here. -/
def exit {α : Type} (status : Int) : Proc α := ⟨[Call.exit status], Status.exited status⟩

/-! ## Environment -/

/-- The window state the program reads and writes: the should-close flag. -/
structure Window where
  shouldClose : Bool
  deriving DecidableEq

/-- An event delivered while `glfwPollEvents` runs: a key event, passed to the
registered key callback, or a window-close request, for which GLFW itself
raises the should-close flag. -/
inductive Event where
  | key (key scancode action mods : Int)
  | closeRequest
  deriving DecidableEq

/-- What the platform answers during one iteration of the render loop. -/
structure FrameInput where
  /-- Framebuffer width reported by `glfwGetFramebufferSize`. -/
  width : Int
  /-- Framebuffer height reported by `glfwGetFramebufferSize`. -/
  height : Int
  /-- Outcome of `glfwGetTime() > 1.0` in `animate`. -/
  timeOver : Bool
  /-- Events pending when `glfwPollEvents` is called. -/
  events : List Event
  deriving DecidableEq

/-- Everything outside the program that a run depends on. -/
structure Env where
  /-- Result of `glfwInit`. -/
  glfwInitOk : Bool
  /-- Whether `glfwCreateWindow` returned a window. -/
  windowOk : Bool
  /-- Should-close flag of the window when the render loop is first reached. -/
  initialShouldClose : Bool
  /-- The directory `shader_path` configured at build time. -/
  shader_path : String
  /-- Contents of the vertex shader file, when readable. -/
  vshaderText : Option String
  /-- Contents of the fragment shader file, when readable. -/
  fshaderText : Option String
  /-- Handle returned by `glCreateShader(GL_VERTEX_SHADER)`. -/
  vertexShaderId : Nat
  /-- Handle returned by `glCreateShader(GL_FRAGMENT_SHADER)`. -/
  fragmentShaderId : Nat
  /-- Compile status of the vertex shader. -/
  vertexCompiled : Bool
  /-- Compile status of the fragment shader. -/
  fragmentCompiled : Bool
  /-- Handle returned by `glCreateProgram`. -/
  programId : Nat
  /-- Link status of the program. -/
  linked : Bool
  /-- Result of `glGetAttribLocation(program, "vPos")`. -/
  vposLocation : Int
  /-- Result of `glGetAttribLocation(program, "vColor")`. -/
  vcolorLocation : Int
  /-- Name returned by `glGenVertexArrays`. -/
  vaoId : Nat
  /-- Name returned by `glGenBuffers`. -/
  bufferId : Nat
  /-- The platform's answers, one entry per iteration of the render loop. -/
  frames : List FrameInput
  deriving DecidableEq

/-! ## The program -/

/-- GLFW's `glfwSetWindowShouldClose`. -/
def glfwSetWindowShouldClose (_window : Window) (value : Bool) : List Call × Window :=
  ([Call.glfwSetWindowShouldClose value], ⟨value⟩)

/-- The GLFW keypress callback of `triangle.cpp`. -/
def key_callback (window : Window) (key _scancode action _mods : Int) : List Call × Window :=
  if key = GLFW_KEY_ESCAPE ∧ action = GLFW_PRESS then
    glfwSetWindowShouldClose window true
  else
    ([], window)

/-- Modelled from the spec: `shader.h` is absent.  Section 4.2: `loadShaderSource`
fails with a fatal `ShaderReadError` if the file is unreadable; section 2: on
failure the loader reports a diagnostic and halts. -/
def readShaderSource (file : String) (contents : Option String) : Proc String :=
  match contents with
  | some text => ⟨[Call.readShaderSource file (some text)], Status.ret text⟩
  | none =>
    ⟨[Call.readShaderSource file none, Call.stderr file, Call.exit EXIT_FAILURE],
      Status.exited EXIT_FAILURE⟩

/-- Modelled from the spec: `shader.h` is absent.  Sections 4.2 and 7: on a
failed compilation the reference behaviour reports the compiler diagnostic and
does not abort; execution continues in the caller. -/
def check_shader_compilation (file : String) (shader : Nat) (compiled : Bool) : Proc Bool :=
  if compiled then
    ⟨[Call.check_shader_compilation file shader true], Status.ret true⟩
  else
    ⟨[Call.check_shader_compilation file shader false, Call.stderr file], Status.ret false⟩

/-- Modelled from the spec: `shader.h` is absent.  Section 7: a link failure is
reported and does not abort. -/
def check_program_link (program : Nat) (linked : Bool) : Proc Bool :=
  if linked then
    ⟨[Call.check_program_link program true], Status.ret true⟩
  else
    ⟨[Call.check_program_link program false, Call.stderr "link"], Status.ret false⟩

/-- The vertex positions `init` stores in `triangle[0..2]`. -/
def triangle : List vec2 :=
  [⟨-1, -1⟩, ⟨0, 1⟩, ⟨1, -1⟩]

/-- The byte count `triangle_bytes` of `init`. -/
def triangle_bytes : Nat := 3 * sizeof_vec2

/-- The vertex colors `init` stores in `triangle_colors[0..2]`. -/
def triangle_colors : List vec3 :=
  [⟨0, 0, 1⟩, ⟨1, 0, 0⟩, ⟨0, 1, 0⟩]

/-- The byte count `triangle_color_bytes` of `init`. -/
def triangle_color_bytes : Nat := 3 * sizeof_vec3

/-- The handles `init` hands back through its reference parameters
(`sqVao` is never assigned). -/
structure Handles where
  glShaderProgram : Nat
  triVao : Nat
  deriving DecidableEq

/-- The function `init` of `triangle.cpp`. -/
def init (env : Env) : Proc Handles := do
  let vshader := env.shader_path ++ "vshader.glsl"
  let fshader := env.shader_path ++ "fshader.glsl"
  let vertex_shader_source ← readShaderSource vshader env.vshaderText
  let fragment_shader_source ← readShaderSource fshader env.fshaderText
  let vertex_shader := env.vertexShaderId
  emit (Call.glCreateShader GLenum.GL_VERTEX_SHADER vertex_shader)
  emit (Call.glShaderSource vertex_shader vertex_shader_source)
  emit (Call.glCompileShader vertex_shader)
  let _ ← check_shader_compilation vshader vertex_shader env.vertexCompiled
  let fragment_shader := env.fragmentShaderId
  emit (Call.glCreateShader GLenum.GL_FRAGMENT_SHADER fragment_shader)
  emit (Call.glShaderSource fragment_shader fragment_shader_source)
  emit (Call.glCompileShader fragment_shader)
  let _ ← check_shader_compilation fshader fragment_shader env.fragmentCompiled
  let glShaderProgram := env.programId
  emit (Call.glCreateProgram glShaderProgram)
  emit (Call.glAttachShader glShaderProgram vertex_shader)
  emit (Call.glAttachShader glShaderProgram fragment_shader)
  emit (Call.glLinkProgram glShaderProgram)
  let _ ← check_program_link glShaderProgram env.linked
  emit (Call.glBindFragDataLocation glShaderProgram 0 "fragColor")
  let vpos_location := env.vposLocation
  emit (Call.glGetAttribLocation glShaderProgram "vPos" vpos_location)
  let vcolor_location := env.vcolorLocation
  emit (Call.glGetAttribLocation glShaderProgram "vColor" vcolor_location)
  let triVao := env.vaoId
  emit (Call.glGenVertexArrays triVao)
  emit (Call.glBindVertexArray triVao)
  let tri_buffer := env.bufferId
  emit (Call.glGenBuffers tri_buffer)
  emit (Call.glBindBuffer GLenum.GL_ARRAY_BUFFER tri_buffer)
  emit (Call.glBufferData GLenum.GL_ARRAY_BUFFER (triangle_bytes * triangle_color_bytes) none
    GLenum.GL_STATIC_DRAW)
  emit (Call.glBufferSubData GLenum.GL_ARRAY_BUFFER 0 triangle_bytes (bytesOfVec2s triangle))
  emit (Call.glBufferSubData GLenum.GL_ARRAY_BUFFER triangle_bytes triangle_color_bytes
    (bytesOfVec3s triangle_colors))
  emit (Call.glEnableVertexAttribArray (toGLuint vpos_location))
  emit (Call.glEnableVertexAttribArray (toGLuint vcolor_location))
  emit (Call.glVertexAttribPointer (toGLuint vpos_location) 2 GLenum.GL_FLOAT false 0
    (BUFFER_OFFSET 0))
  emit (Call.glVertexAttribPointer (toGLuint vcolor_location) 3 GLenum.GL_FLOAT false 0
    (BUFFER_OFFSET triangle_bytes))
  emit (Call.glBindVertexArray 0)
  pure ⟨glShaderProgram, triVao⟩

/-- The animation callback `animate` of `triangle.cpp`. -/
def animate (over : Bool) : Proc Unit := do
  emit (Call.glfwGetTime over)
  if over then
    emit (Call.glfwSetTime 0)

/-- GLFW's `glfwPollEvents`: delivers the pending events in order, key events
to the registered `key_callback`. -/
def dispatchEvents : List Event → Window → List Call × Window
  | [], window => ([], window)
  | Event.key k s a m :: rest, window =>
    let r := key_callback window k s a m
    let r2 := dispatchEvents rest r.2
    (r.1 ++ r2.1, r2.2)
  | Event.closeRequest :: rest, _ =>
    dispatchEvents rest ⟨true⟩

/-- The call `glfwPollEvents()` with the callbacks it runs. -/
def glfwPollEvents (events : List Event) (window : Window) : Proc Window :=
  ⟨Call.glfwPollEvents :: (dispatchEvents events window).1,
    Status.ret (dispatchEvents events window).2⟩

/-- The body of the render loop of `main`, lines 166 to 192. -/
def loopBody (h : Handles) (frame : FrameInput) (window : Window) : Proc Window := do
  emit (Call.glfwGetFramebufferSize frame.width frame.height)
  let width := frame.width
  let height := frame.height
  emit (Call.glViewport 0 0 width height)
  animate frame.timeOver
  emit (Call.glClear GLenum.GL_COLOR_BUFFER_BIT)
  emit (Call.glUseProgram h.glShaderProgram)
  emit (Call.glBindVertexArray h.triVao)
  emit (Call.glDrawArrays GLenum.GL_TRIANGLES 0 3)
  emit (Call.glBindVertexArray 0)
  emit Call.glfwSwapBuffers
  glfwPollEvents frame.events window

/-- The loop `while (!glfwWindowShouldClose(window)) ...` of `main`.  Each
iteration consumes one recorded frame; when the recording ends while the flag
is still down, the run is still `running` and the trace is the prefix issued
so far. -/
def renderLoop (h : Handles) : List FrameInput → Window → Proc Unit
  | _, ⟨true⟩ => ⟨[Call.glfwWindowShouldClose true], Status.ret ()⟩
  | [], ⟨false⟩ => ⟨[], Status.running⟩
  | frame :: rest, ⟨false⟩ => do
    emit (Call.glfwWindowShouldClose false)
    let window ← loopBody h frame ⟨false⟩
    renderLoop h rest window

/-- The function `main` of `triangle.cpp`. -/
def main (env : Env) : Proc Unit := do
  emit Call.glfwSetErrorCallback
  emit (Call.glfwInit env.glfwInitOk)
  if !env.glfwInitOk then
    exit EXIT_FAILURE
  else
    emit (Call.glfwWindowHint GLFWhint.GLFW_CONTEXT_VERSION_MAJOR 3)
    emit (Call.glfwWindowHint GLFWhint.GLFW_CONTEXT_VERSION_MINOR 2)
    emit (Call.glfwWindowHint GLFWhint.GLFW_OPENGL_FORWARD_COMPAT GL_TRUE)
    emit (Call.glfwWindowHint GLFWhint.GLFW_OPENGL_PROFILE GLFW_OPENGL_CORE_PROFILE)
    emit (Call.glfwWindowHint GLFWhint.GLFW_SAMPLES 4)
    emit (Call.glfwCreateWindow 512 512 "Rainbow triangle" env.windowOk)
    if !env.windowOk then
      emit Call.glfwTerminate
      exit EXIT_FAILURE
    else
      let window : Window := ⟨env.initialShouldClose⟩
      emit Call.glfwSetKeyCallback
      emit Call.glfwMakeContextCurrent
      emit Call.gladLoadGLLoader
      emit (Call.glfwSwapInterval 1)
      let h ← init env
      emit (Call.glClearColor 1 1 1 1)
      renderLoop h env.frames window
      emit Call.glfwDestroyWindow
      emit Call.glfwTerminate
      exit EXIT_SUCCESS

/-! ## Observations on traces -/

/-- The arguments of a draw call: mode, first vertex, vertex count. -/
def drawOf : Call → Option (GLenum × Int × Int)
  | Call.glDrawArrays mode first count => some (mode, first, count)
  | _ => none

/-- The draw calls of a trace, in order. -/
def draws (t : List Call) : List (GLenum × Int × Int) := t.filterMap drawOf

/-- The arguments of a viewport call: x, y, width, height. -/
def viewportOf : Call → Option (Int × Int × Int × Int)
  | Call.glViewport x y w h => some (x, y, w, h)
  | _ => none

/-- The viewports set in a trace, in order. -/
def viewports (t : List Call) : List (Int × Int × Int × Int) := t.filterMap viewportOf

/-- The size reported by a framebuffer-size query. -/
def framebufferSizeOf : Call → Option (Int × Int)
  | Call.glfwGetFramebufferSize w h => some (w, h)
  | _ => none

/-- The framebuffer sizes reported in a trace, in order. -/
def framebufferSizes (t : List Call) : List (Int × Int) := t.filterMap framebufferSizeOf

/-- The result of a should-close check. -/
def closeCheckOf : Call → Option Bool
  | Call.glfwWindowShouldClose r => some r
  | _ => none

/-- The results of the should-close checks of a trace, in order. -/
def closeChecks (t : List Call) : List Bool := t.filterMap closeCheckOf

/-- Recognises `glfwPollEvents`, the last call of an iteration of the render loop. -/
def pollOf : Call → Option Unit
  | Call.glfwPollEvents => some ()
  | _ => none

/-- Number of completed iterations of the render loop in a trace: each one ends
with its `glfwPollEvents`. -/
def iterations (t : List Call) : Nat := (t.filterMap pollOf).length

/-- Recognises the frame-rendering calls: clear, draw, buffer swap. -/
def renderCallOf : Call → Option Call
  | Call.glClear m => some (Call.glClear m)
  | Call.glDrawArrays m f c => some (Call.glDrawArrays m f c)
  | Call.glfwSwapBuffers => some Call.glfwSwapBuffers
  | _ => none

/-- The frame-rendering calls of a trace, in order. -/
def renderCalls (t : List Call) : List Call := t.filterMap renderCallOf

/-- The size given to a buffer allocation. -/
def allocationOf : Call → Option Nat
  | Call.glBufferData _ size _ _ => some size
  | _ => none

/-- The buffer allocations of a trace: the sizes given to `glBufferData`. -/
def allocations (t : List Call) : List Nat := t.filterMap allocationOf

/-- Byte offset and byte length of a sub-range upload. -/
def uploadOf : Call → Option (Nat × Nat)
  | Call.glBufferSubData _ offset size _ => some (offset, size)
  | _ => none

/-- The sub-range uploads of a trace: offset and length given to
`glBufferSubData`, in order. -/
def uploads (t : List Call) : List (Nat × Nat) := t.filterMap uploadOf

/-- Slot, component count, element type, normalized, stride and byte offset of
an attribute binding. -/
def attribPointerOf : Call → Option (Nat × Int × GLenum × Bool × Int × Nat)
  | Call.glVertexAttribPointer i n ty nm st off => some (i, n, ty, nm, st, off)
  | _ => none

/-- The attribute bindings of a trace, in order. -/
def attribPointers (t : List Call) : List (Nat × Int × GLenum × Bool × Int × Nat) :=
  t.filterMap attribPointerOf

/-- Name and result of an attribute-location query. -/
def attribLocationOf : Call → Option (String × Int)
  | Call.glGetAttribLocation _ name ret => some (name, ret)
  | _ => none

/-- The attribute-location queries of a trace, in order. -/
def attribLocations (t : List Call) : List (String × Int) := t.filterMap attribLocationOf

/-- Two byte ranges (offset, length) that share no byte. -/
def rangesDisjoint (a b : Nat × Nat) : Prop :=
  a.1 + a.2 ≤ b.1 ∨ b.1 + b.2 ≤ a.1

instance (a b : Nat × Nat) : Decidable (rangesDisjoint a b) := by
  unfold rangesDisjoint
  infer_instance

/-- Position of the first occurrence of a call satisfying `p`, if any. -/
def firstIndex (p : Call → Bool) : List Call → Option Nat
  | [] => none
  | c :: t => if p c then some 0 else (firstIndex p t).map (fun n => n + 1)

/-- Recognises `glLinkProgram` on the given program handle. -/
def isLink (program : Nat) : Call → Bool
  | Call.glLinkProgram q => decide (q = program)
  | _ => false

/-- Recognises the binding of the output `fragColor` to slot 0 on the given
program handle. -/
def isBindFragColor (program : Nat) : Call → Bool
  | Call.glBindFragDataLocation q slot name =>
    decide (q = program) && decide (slot = 0) && decide (name = "fragColor")
  | _ => false

/-- Whether the first call satisfying `p` occurs, and occurs before the first
call satisfying `q`, which occurs too. -/
def occursBefore (p q : Call → Bool) (t : List Call) : Bool :=
  match firstIndex p t, firstIndex q t with
  | some i, some j => decide (i < j)
  | _, _ => false

/-- The calls that act on the data store of the buffer bound to
`GL_ARRAY_BUFFER` (the program has a single buffer). -/
inductive BufferOp where
  | allocate (size : Nat) (data : Option (List Byte))
  | upload (offset size : Nat) (data : List Byte)
  deriving DecidableEq

/-- The buffer operation a call performs, if any. -/
def bufferOpOf : Call → Option BufferOp
  | Call.glBufferData _ size data _ => some (BufferOp.allocate size data)
  | Call.glBufferSubData _ offset size data => some (BufferOp.upload offset size data)
  | _ => none

/-- The buffer operations of a trace, in order. -/
def bufferOps (t : List Call) : List BufferOp := t.filterMap bufferOpOf

/-- OpenGL's buffer-store semantics: `glBufferData` with a null pointer
allocates `size` uninitialised bytes (with data, copies `size` bytes of it);
`glBufferSubData` overwrites `size` bytes at `offset` when the range lies
inside the store and is rejected, leaving the store as it is, otherwise. -/
def bufferStep (store : Option (List Byte)) : BufferOp → Option (List Byte)
  | BufferOp.allocate size none => some (List.replicate size Byte.uninit)
  | BufferOp.allocate size (some data) => some (data.take size)
  | BufferOp.upload offset size data =>
    match store with
    | none => none
    | some bytes =>
      if offset + size ≤ bytes.length then
        some (bytes.take offset ++ data.take size ++ bytes.drop (offset + size))
      else
        some bytes

/-- The buffer store after all calls of a trace. -/
def bufferAfter (t : List Call) : Option (List Byte) :=
  (bufferOps t).foldl bufferStep none

/-- Bytes `offset .. offset + size` of a store. -/
def readBack (bytes : List Byte) (offset size : Nat) : List Byte :=
  (bytes.drop offset).take size

/-- Twice the signed area of the triangle `p0 p1 p2`:
`(x1-x0)*(y2-y0) - (x2-x0)*(y1-y0)`. -/
def signedArea (p0 p1 p2 : vec2) : Int :=
  (p1.x - p0.x) * (p2.y - p0.y) - (p2.x - p0.x) * (p1.y - p0.y)

/-- Signed area of the first three vertices of an array, in index order. -/
def windingArea : List vec2 → Option Int
  | p0 :: p1 :: p2 :: _ => some (signedArea p0 p1 p2)
  | _ => none

/-- The calls only the render loop and the callbacks issue. -/
def isLoopCall : Call → Bool
  | Call.glfwWindowShouldClose _ => true
  | Call.glfwGetFramebufferSize _ _ => true
  | Call.glViewport _ _ _ _ => true
  | Call.glfwGetTime _ => true
  | Call.glfwSetTime _ => true
  | Call.glClear _ => true
  | Call.glUseProgram _ => true
  | Call.glDrawArrays _ _ _ => true
  | Call.glfwSwapBuffers => true
  | Call.glfwPollEvents => true
  | Call.glfwSetWindowShouldClose _ => true
  | _ => false

/-- The calls `main` issues before `init` when GLFW and the window come up. -/
def startup : List Call :=
  [Call.glfwSetErrorCallback, Call.glfwInit true,
    Call.glfwWindowHint GLFWhint.GLFW_CONTEXT_VERSION_MAJOR 3,
    Call.glfwWindowHint GLFWhint.GLFW_CONTEXT_VERSION_MINOR 2,
    Call.glfwWindowHint GLFWhint.GLFW_OPENGL_FORWARD_COMPAT GL_TRUE,
    Call.glfwWindowHint GLFWhint.GLFW_OPENGL_PROFILE GLFW_OPENGL_CORE_PROFILE,
    Call.glfwWindowHint GLFWhint.GLFW_SAMPLES 4,
    Call.glfwCreateWindow 512 512 "Rainbow triangle" true,
    Call.glfwSetKeyCallback, Call.glfwMakeContextCurrent, Call.gladLoadGLLoader,
    Call.glfwSwapInterval 1]

/-- The calls `main` issues after the render loop. -/
def shutdown : List Call :=
  [Call.glfwDestroyWindow, Call.glfwTerminate, Call.exit EXIT_SUCCESS]

/-- The render loop as `main` enters it. -/
def mainLoop (env : Env) : Proc Unit :=
  renderLoop ⟨env.programId, env.vaoId⟩ env.frames ⟨env.initialShouldClose⟩

/-- Whether `main` gets as far as the render loop: GLFW initialises, the
window is created and both shader files are read. -/
def reachesLoop (env : Env) : Bool :=
  env.glfwInitOk && env.windowOk && env.vshaderText.isSome && env.fshaderText.isSome

/-! ## Sample environments -/

/-- A run in which everything succeeds and the user closes after `frames`. -/
def goodEnv (frames : List FrameInput) : Env :=
  ⟨true, true, false, "shaders/", some "#version 150 vertex", some "#version 150 fragment",
    1, 2, true, true, 3, true, 0, 1, 1, 1, frames⟩

/-- One frame of a 512 by 512 framebuffer with no pending event. -/
def quietFrame : FrameInput := ⟨512, 512, false, []⟩

/-- One frame at the end of which the exit key is pressed. -/
def escapeFrame : FrameInput := ⟨512, 512, false, [Event.key 256 9 1 0]⟩

/-- A run whose vertex shader fails to compile; the user watches one frame and
presses the exit key during the second. -/
def badVertexEnv : Env :=
  ⟨true, true, false, "shaders/", some "#version 150 vertx", some "#version 150 fragment",
    1, 2, false, true, 3, true, 0, 1, 1, 1, [quietFrame, escapeFrame]⟩

/-- A run that finds the should-close flag up on its first check. -/
def closedEnv : Env :=
  ⟨true, true, true, "shaders/", some "#version 150 vertex", some "#version 150 fragment",
    1, 2, true, true, 3, true, 0, 1, 1, 1, [quietFrame]⟩

/-! ## Unfolding the program -/

@[simp] theorem bind_eq {α β : Type} (m : Proc α) (f : α → Proc β) :
    (m >>= f) = Proc.bind m f := rfl

@[simp] theorem pure_eq {α : Type} (a : α) : (pure a : Proc α) = ⟨[], Status.ret a⟩ := rfl

theorem init_of_sources (env : Env) (v f : String)
    (hv : env.vshaderText = some v) (hf : env.fshaderText = some f) :
    init env =
      ⟨[Call.readShaderSource (env.shader_path ++ "vshader.glsl") (some v),
        Call.readShaderSource (env.shader_path ++ "fshader.glsl") (some f),
        Call.glCreateShader GLenum.GL_VERTEX_SHADER env.vertexShaderId,
        Call.glShaderSource env.vertexShaderId v,
        Call.glCompileShader env.vertexShaderId]
        ++ (check_shader_compilation (env.shader_path ++ "vshader.glsl") env.vertexShaderId
              env.vertexCompiled).trace
        ++ [Call.glCreateShader GLenum.GL_FRAGMENT_SHADER env.fragmentShaderId,
        Call.glShaderSource env.fragmentShaderId f,
        Call.glCompileShader env.fragmentShaderId]
        ++ (check_shader_compilation (env.shader_path ++ "fshader.glsl") env.fragmentShaderId
              env.fragmentCompiled).trace
        ++ [Call.glCreateProgram env.programId,
        Call.glAttachShader env.programId env.vertexShaderId,
        Call.glAttachShader env.programId env.fragmentShaderId,
        Call.glLinkProgram env.programId]
        ++ (check_program_link env.programId env.linked).trace
        ++ [Call.glBindFragDataLocation env.programId 0 "fragColor",
        Call.glGetAttribLocation env.programId "vPos" env.vposLocation,
        Call.glGetAttribLocation env.programId "vColor" env.vcolorLocation,
        Call.glGenVertexArrays env.vaoId,
        Call.glBindVertexArray env.vaoId,
        Call.glGenBuffers env.bufferId,
        Call.glBindBuffer GLenum.GL_ARRAY_BUFFER env.bufferId,
        Call.glBufferData GLenum.GL_ARRAY_BUFFER (triangle_bytes * triangle_color_bytes) none
          GLenum.GL_STATIC_DRAW,
        Call.glBufferSubData GLenum.GL_ARRAY_BUFFER 0 triangle_bytes (bytesOfVec2s triangle),
        Call.glBufferSubData GLenum.GL_ARRAY_BUFFER triangle_bytes triangle_color_bytes
          (bytesOfVec3s triangle_colors),
        Call.glEnableVertexAttribArray (toGLuint env.vposLocation),
        Call.glEnableVertexAttribArray (toGLuint env.vcolorLocation),
        Call.glVertexAttribPointer (toGLuint env.vposLocation) 2 GLenum.GL_FLOAT false 0
          (BUFFER_OFFSET 0),
        Call.glVertexAttribPointer (toGLuint env.vcolorLocation) 3 GLenum.GL_FLOAT false 0
          (BUFFER_OFFSET triangle_bytes),
        Call.glBindVertexArray 0],
      Status.ret ⟨env.programId, env.vaoId⟩⟩ := by
  cases hc1 : env.vertexCompiled <;> cases hc2 : env.fragmentCompiled <;> cases hl : env.linked <;>
    simp [init, hv, hf, hc1, hc2, hl, readShaderSource, check_shader_compilation,
      check_program_link, emit, Proc.bind]

theorem init_sources_of_ret (env : Env) (h : Handles) (hret : (init env).status = Status.ret h) :
    ∃ v f, env.vshaderText = some v ∧ env.fshaderText = some f := by
  cases hv : env.vshaderText with
  | none => simp [init, hv, readShaderSource, Proc.bind] at hret
  | some v =>
    cases hf : env.fshaderText with
    | none => simp [init, hv, hf, readShaderSource, Proc.bind] at hret
    | some f => exact ⟨v, f, rfl, rfl⟩

theorem init_no_vertex_source (env : Env) (hv : env.vshaderText = none) :
    init env =
      ⟨[Call.readShaderSource (env.shader_path ++ "vshader.glsl") none,
        Call.stderr (env.shader_path ++ "vshader.glsl"), Call.exit EXIT_FAILURE],
        Status.exited EXIT_FAILURE⟩ := by
  simp [init, hv, readShaderSource, Proc.bind]

theorem init_no_fragment_source (env : Env) (v : String) (hv : env.vshaderText = some v)
    (hf : env.fshaderText = none) :
    init env =
      ⟨[Call.readShaderSource (env.shader_path ++ "vshader.glsl") (some v),
        Call.readShaderSource (env.shader_path ++ "fshader.glsl") none,
        Call.stderr (env.shader_path ++ "fshader.glsl"), Call.exit EXIT_FAILURE],
        Status.exited EXIT_FAILURE⟩ := by
  simp [init, hv, hf, readShaderSource, Proc.bind]

theorem init_status (env : Env) :
    (init env).status = Status.ret ⟨env.programId, env.vaoId⟩ ∨
      (init env).status = Status.exited EXIT_FAILURE := by
  cases hv : env.vshaderText with
  | none => right; rw [init_no_vertex_source env hv]
  | some v =>
    cases hf : env.fshaderText with
    | none => right; rw [init_no_fragment_source env v hv hf]
    | some f => left; rw [init_of_sources env v f hv hf]

theorem key_callback_calls (w : Window) (k sc a m : Int) :
    ∀ c ∈ (key_callback w k sc a m).1, c = Call.glfwSetWindowShouldClose true := by
  unfold key_callback glfwSetWindowShouldClose
  split <;> simp

theorem dispatchEvents_calls (events : List Event) :
    ∀ (w : Window), ∀ c ∈ (dispatchEvents events w).1,
      c = Call.glfwSetWindowShouldClose true := by
  induction events with
  | nil => intro w c hc; simp [dispatchEvents] at hc
  | cons e rest ih =>
    intro w c hc
    cases e with
    | key k sc a m =>
      simp only [dispatchEvents, List.mem_append] at hc
      rcases hc with hc | hc
      · exact key_callback_calls w k sc a m c hc
      · exact ih _ c hc
    | closeRequest =>
      simp only [dispatchEvents] at hc
      exact ih _ c hc

theorem dispatchEvents_filterMap_nil {β : Type} (g : Call → Option β)
    (hg : g (Call.glfwSetWindowShouldClose true) = none) (events : List Event) (w : Window) :
    (dispatchEvents events w).1.filterMap g = [] := by
  rw [List.filterMap_eq_nil_iff]
  intro c hc
  rw [dispatchEvents_calls events w c hc]
  exact hg

theorem loopBody_eq (h : Handles) (frame : FrameInput) (w : Window) :
    loopBody h frame w =
      ⟨[Call.glfwGetFramebufferSize frame.width frame.height,
        Call.glViewport 0 0 frame.width frame.height]
        ++ (animate frame.timeOver).trace
        ++ [Call.glClear GLenum.GL_COLOR_BUFFER_BIT,
        Call.glUseProgram h.glShaderProgram,
        Call.glBindVertexArray h.triVao,
        Call.glDrawArrays GLenum.GL_TRIANGLES 0 3,
        Call.glBindVertexArray 0,
        Call.glfwSwapBuffers,
        Call.glfwPollEvents]
        ++ (dispatchEvents frame.events w).1,
      Status.ret (dispatchEvents frame.events w).2⟩ := by
  cases ht : frame.timeOver <;>
    simp [loopBody, animate, glfwPollEvents, emit, Proc.bind, ht]

theorem animate_trace (over : Bool) :
    (animate over).trace =
      Call.glfwGetTime over :: (if over then [Call.glfwSetTime 0] else []) := by
  cases over <;> simp [animate, emit, Proc.bind]

theorem renderLoop_closed (h : Handles) (frames : List FrameInput) :
    renderLoop h frames ⟨true⟩ = ⟨[Call.glfwWindowShouldClose true], Status.ret ()⟩ := by
  cases frames <;> rfl

theorem renderLoop_cons (h : Handles) (frame : FrameInput) (rest : List FrameInput) :
    renderLoop h (frame :: rest) ⟨false⟩ =
      ⟨Call.glfwWindowShouldClose false :: (loopBody h frame ⟨false⟩).trace
        ++ (renderLoop h rest (dispatchEvents frame.events ⟨false⟩).2).trace,
      (renderLoop h rest (dispatchEvents frame.events ⟨false⟩).2).status⟩ := by
  conv_lhs => unfold renderLoop
  simp [emit, Proc.bind, loopBody_eq]

theorem renderLoop_status (h : Handles) (frames : List FrameInput) :
    ∀ w, (renderLoop h frames w).status = Status.ret () ∨
      (renderLoop h frames w).status = Status.running := by
  induction frames with
  | nil =>
    intro w
    obtain ⟨b⟩ := w
    cases b
    · right; rfl
    · left; rfl
  | cons frame rest ih =>
    intro w
    obtain ⟨b⟩ := w
    cases b
    · rw [renderLoop_cons]; exact ih _
    · left; rfl

theorem init_setup_all (env : Env) :
    (init env).trace.all (fun c => !isLoopCall c) = true := by
  cases hv : env.vshaderText with
  | none => simp [init_no_vertex_source env hv, isLoopCall]
  | some v =>
    cases hf : env.fshaderText with
    | none => simp [init_no_fragment_source env v hv hf, isLoopCall]
    | some f =>
      rw [init_of_sources env v f hv hf]
      cases env.vertexCompiled <;> cases env.fragmentCompiled <;> cases env.linked <;>
        simp [check_shader_compilation, check_program_link, isLoopCall]

theorem filterMap_nil_of_setup {β : Type} (g : Call → Option β)
    (hg : ∀ c, isLoopCall c = false → g c = none) (t : List Call)
    (ht : t.all (fun c => !isLoopCall c) = true) : t.filterMap g = [] := by
  rw [List.filterMap_eq_nil_iff]
  intro c hc
  rw [List.all_eq_true] at ht
  exact hg c (by simpa using ht c hc)

theorem main_no_glfw (env : Env) (hg : env.glfwInitOk = false) :
    main env =
      ⟨[Call.glfwSetErrorCallback, Call.glfwInit false, Call.exit EXIT_FAILURE],
        Status.exited EXIT_FAILURE⟩ := by
  simp [main, hg, emit, exit, Proc.bind]

theorem main_no_window (env : Env) (hg : env.glfwInitOk = true) (hw : env.windowOk = false) :
    main env =
      ⟨[Call.glfwSetErrorCallback, Call.glfwInit true,
        Call.glfwWindowHint GLFWhint.GLFW_CONTEXT_VERSION_MAJOR 3,
        Call.glfwWindowHint GLFWhint.GLFW_CONTEXT_VERSION_MINOR 2,
        Call.glfwWindowHint GLFWhint.GLFW_OPENGL_FORWARD_COMPAT GL_TRUE,
        Call.glfwWindowHint GLFWhint.GLFW_OPENGL_PROFILE GLFW_OPENGL_CORE_PROFILE,
        Call.glfwWindowHint GLFWhint.GLFW_SAMPLES 4,
        Call.glfwCreateWindow 512 512 "Rainbow triangle" false,
        Call.glfwTerminate, Call.exit EXIT_FAILURE],
        Status.exited EXIT_FAILURE⟩ := by
  simp [main, hg, hw, emit, exit, Proc.bind]

theorem main_init_exits (env : Env) (hg : env.glfwInitOk = true) (hw : env.windowOk = true)
    (hi : (init env).status = Status.exited EXIT_FAILURE) :
    main env = ⟨startup ++ (init env).trace, Status.exited EXIT_FAILURE⟩ := by
  simp [main, hg, hw, emit, exit, Proc.bind, hi, startup]

theorem main_enters_loop (env : Env) (hg : env.glfwInitOk = true) (hw : env.windowOk = true)
    (hi : (init env).status = Status.ret ⟨env.programId, env.vaoId⟩) :
    main env =
      ⟨startup ++ (init env).trace ++ [Call.glClearColor 1 1 1 1] ++ (mainLoop env).trace
        ++ (if (mainLoop env).status = Status.ret () then shutdown else []),
      if (mainLoop env).status = Status.ret () then Status.exited EXIT_SUCCESS
      else Status.running⟩ := by
  rcases renderLoop_status ⟨env.programId, env.vaoId⟩ env.frames ⟨env.initialShouldClose⟩
    with hs | hs
  · simp [main, hg, hw, emit, exit, Proc.bind, hi, startup, shutdown, mainLoop, hs]
  · simp [main, hg, hw, emit, exit, Proc.bind, hi, startup, shutdown, mainLoop, hs]

theorem init_ret_iff (env : Env) :
    (init env).status = Status.ret ⟨env.programId, env.vaoId⟩ ↔
      (env.vshaderText.isSome = true ∧ env.fshaderText.isSome = true) := by
  cases hv : env.vshaderText with
  | none => simp [init_no_vertex_source env hv]
  | some v =>
    cases hf : env.fshaderText with
    | none => simp [init_no_fragment_source env v hv hf]
    | some f => simp [init_of_sources env v f hv hf]

theorem main_filterMap {β : Type} (g : Call → Option β)
    (hg : ∀ c, isLoopCall c = false → g c = none) (env : Env) :
    (main env).trace.filterMap g =
      if reachesLoop env = true then (mainLoop env).trace.filterMap g else [] := by
  cases hgl : env.glfwInitOk with
  | false =>
    rw [main_no_glfw env hgl]
    simp only [reachesLoop, hgl, Bool.false_and]
    exact filterMap_nil_of_setup g hg _ rfl
  | true =>
    cases hw : env.windowOk with
    | false =>
      rw [main_no_window env hgl hw]
      simp only [reachesLoop, hgl, hw, Bool.true_and, Bool.false_and]
      exact filterMap_nil_of_setup g hg _ rfl
    | true =>
      have h1 := filterMap_nil_of_setup g hg startup rfl
      have h2 := filterMap_nil_of_setup g hg (init env).trace (init_setup_all env)
      have h3 := filterMap_nil_of_setup g hg shutdown rfl
      have h4 : g (Call.glClearColor 1 1 1 1) = none := hg _ rfl
      rcases init_status env with hi | hi
      · have hr : reachesLoop env = true := by
          have := (init_ret_iff env).1 hi
          simp [reachesLoop, hgl, hw, this.1, this.2]
        rw [main_enters_loop env hgl hw hi]
        by_cases hs : (mainLoop env).status = Status.ret ()
        · simp [hs, h1, h2, h3, h4, hr, List.filterMap_append]
        · simp [hs, h1, h2, h4, hr, List.filterMap_append]
      · have hr : reachesLoop env = false := by
          have hn : ¬ (init env).status = Status.ret ⟨env.programId, env.vaoId⟩ := by
            rw [hi]; simp
          rw [init_ret_iff] at hn
          simp only [reachesLoop, hgl, hw, Bool.true_and]
          cases h1 : env.vshaderText.isSome <;> cases h2 : env.fshaderText.isSome <;> simp_all
        rw [main_init_exits env hgl hw hi]
        simp [h1, h2, hr, List.filterMap_append]

theorem loopBody_draws (h : Handles) (frame : FrameInput) (w : Window) :
    draws (loopBody h frame w).trace = [(GLenum.GL_TRIANGLES, 0, 3)] := by
  have hd := dispatchEvents_filterMap_nil drawOf rfl frame.events w
  cases ht : frame.timeOver <;>
    simp [loopBody_eq, draws, animate_trace, List.filterMap_append, hd, drawOf, ht]

theorem loopBody_iterations (h : Handles) (frame : FrameInput) (w : Window) :
    iterations (loopBody h frame w).trace = 1 := by
  have hd := dispatchEvents_filterMap_nil pollOf rfl frame.events w
  cases ht : frame.timeOver <;>
    simp [loopBody_eq, iterations, animate_trace, List.filterMap_append, hd, pollOf, ht]

theorem loopBody_viewports (h : Handles) (frame : FrameInput) (w : Window) :
    viewports (loopBody h frame w).trace = [(0, 0, frame.width, frame.height)] := by
  have hd := dispatchEvents_filterMap_nil viewportOf rfl frame.events w
  cases ht : frame.timeOver <;>
    simp [loopBody_eq, viewports, animate_trace, List.filterMap_append, hd, viewportOf, ht]

theorem loopBody_framebufferSizes (h : Handles) (frame : FrameInput) (w : Window) :
    framebufferSizes (loopBody h frame w).trace = [(frame.width, frame.height)] := by
  have hd := dispatchEvents_filterMap_nil framebufferSizeOf rfl frame.events w
  cases ht : frame.timeOver <;>
    simp [loopBody_eq, framebufferSizes, animate_trace, List.filterMap_append, hd,
      framebufferSizeOf, ht]

theorem loopBody_closeChecks (h : Handles) (frame : FrameInput) (w : Window) :
    closeChecks (loopBody h frame w).trace = [] := by
  have hd := dispatchEvents_filterMap_nil closeCheckOf rfl frame.events w
  cases ht : frame.timeOver <;>
    simp [loopBody_eq, closeChecks, animate_trace, List.filterMap_append, hd, closeCheckOf, ht]

theorem iterations_append (a b : List Call) :
    iterations (a ++ b) = iterations a + iterations b := by
  simp [iterations, List.filterMap_append]

theorem iterations_cons_check (r : Bool) (t : List Call) :
    iterations (Call.glfwWindowShouldClose r :: t) = iterations t := by
  simp [iterations, pollOf]

theorem renderLoop_draws (h : Handles) (frames : List FrameInput) :
    ∀ w, draws (renderLoop h frames w).trace =
      List.replicate (iterations (renderLoop h frames w).trace) (GLenum.GL_TRIANGLES, 0, 3) := by
  induction frames with
  | nil =>
    intro w
    obtain ⟨b⟩ := w
    cases b <;> simp [renderLoop, draws, iterations, drawOf, pollOf]
  | cons frame rest ih =>
    intro w
    obtain ⟨b⟩ := w
    cases b
    · rw [renderLoop_cons]
      have hb := loopBody_draws h frame ⟨false⟩
      have hi := loopBody_iterations h frame ⟨false⟩
      have ih2 := ih (dispatchEvents frame.events ⟨false⟩).2
      simp only [draws] at hb ih2 ⊢
      simp only [iterations_cons_check, iterations_append, hi, List.filterMap_cons,
        List.filterMap_append, hb, ih2, drawOf]
      rw [Nat.add_comm, List.replicate_succ]
      rfl
    · simp [renderLoop, draws, iterations, drawOf, pollOf]

theorem renderLoop_viewports (h : Handles) (frames : List FrameInput) :
    ∀ w, viewports (renderLoop h frames w).trace =
      (framebufferSizes (renderLoop h frames w).trace).map (fun s => (0, 0, s.1, s.2)) := by
  induction frames with
  | nil =>
    intro w
    obtain ⟨b⟩ := w
    cases b <;> simp [renderLoop, viewports, framebufferSizes, viewportOf, framebufferSizeOf]
  | cons frame rest ih =>
    intro w
    obtain ⟨b⟩ := w
    cases b
    · rw [renderLoop_cons]
      have hb := loopBody_viewports h frame ⟨false⟩
      have hf := loopBody_framebufferSizes h frame ⟨false⟩
      have ih2 := ih (dispatchEvents frame.events ⟨false⟩).2
      simp only [viewports, framebufferSizes] at hb hf ih2 ⊢
      simp [List.filterMap_append, hb, hf, ih2, viewportOf, framebufferSizeOf]
    · simp [renderLoop, viewports, framebufferSizes, viewportOf, framebufferSizeOf]

theorem renderLoop_framebufferSizes (h : Handles) (frames : List FrameInput) :
    ∀ w, framebufferSizes (renderLoop h frames w).trace =
      (frames.take (iterations (renderLoop h frames w).trace)).map
        (fun f => (f.width, f.height)) := by
  induction frames with
  | nil =>
    intro w
    obtain ⟨b⟩ := w
    cases b <;> simp [renderLoop, framebufferSizes, framebufferSizeOf]
  | cons frame rest ih =>
    intro w
    obtain ⟨b⟩ := w
    cases b
    · rw [renderLoop_cons]
      have hf := loopBody_framebufferSizes h frame ⟨false⟩
      have hi := loopBody_iterations h frame ⟨false⟩
      have ih2 := ih (dispatchEvents frame.events ⟨false⟩).2
      simp only [framebufferSizes] at hf ih2 ⊢
      simp only [iterations_cons_check, iterations_append, hi, List.filterMap_cons,
        List.filterMap_append, hf, ih2, framebufferSizeOf]
      rw [Nat.add_comm, List.take_succ_cons]
      rfl
    · simp [renderLoop, framebufferSizes, iterations, framebufferSizeOf, pollOf]

theorem renderLoop_closeChecks (h : Handles) (frames : List FrameInput) :
    ∀ w, closeChecks (renderLoop h frames w).trace =
      List.replicate (iterations (renderLoop h frames w).trace) false ++
        (if (renderLoop h frames w).status = Status.ret () then [true] else []) := by
  induction frames with
  | nil =>
    intro w
    obtain ⟨b⟩ := w
    cases b <;> simp [renderLoop, closeChecks, iterations, closeCheckOf, pollOf]
  | cons frame rest ih =>
    intro w
    obtain ⟨b⟩ := w
    cases b
    · rw [renderLoop_cons]
      have hf := loopBody_closeChecks h frame ⟨false⟩
      have hi := loopBody_iterations h frame ⟨false⟩
      have ih2 := ih (dispatchEvents frame.events ⟨false⟩).2
      simp only [closeChecks] at hf ih2 ⊢
      simp only [iterations_cons_check, iterations_append, hi, List.filterMap_cons,
        List.filterMap_append, hf, ih2, closeCheckOf]
      rw [Nat.add_comm, List.replicate_succ]
      rfl
    · simp [renderLoop, closeChecks, iterations, closeCheckOf, pollOf]

/-- A should-close check that answers true is the last call of the loop, and
the loop returns exactly when there is one. -/
theorem renderLoop_close_last (h : Handles) (frames : List FrameInput) :
    ∀ w, ((renderLoop h frames w).status = Status.ret () ∧
        ∃ body, (renderLoop h frames w).trace = body ++ [Call.glfwWindowShouldClose true] ∧
          Call.glfwWindowShouldClose true ∉ body) ∨
      ((renderLoop h frames w).status = Status.running ∧
        Call.glfwWindowShouldClose true ∉ (renderLoop h frames w).trace) := by
  induction frames with
  | nil =>
    intro w
    obtain ⟨b⟩ := w
    cases b
    · right; simp [renderLoop]
    · left; exact ⟨rfl, [], rfl, by simp⟩
  | cons frame rest ih =>
    intro w
    obtain ⟨b⟩ := w
    cases b
    · rw [renderLoop_cons]
      have hnb : Call.glfwWindowShouldClose true ∉ (loopBody h frame ⟨false⟩).trace := by
        intro hmem
        have hc := loopBody_closeChecks h frame ⟨false⟩
        have : true ∈ closeChecks (loopBody h frame ⟨false⟩).trace := by
          simp only [closeChecks, List.mem_filterMap]
          exact ⟨_, hmem, rfl⟩
        rw [hc] at this
        simp at this
      rcases ih (dispatchEvents frame.events ⟨false⟩).2 with
        ⟨hs, body, hb, hnm⟩ | ⟨hs, hnm⟩
      · left
        refine ⟨hs,
          Call.glfwWindowShouldClose false :: (loopBody h frame ⟨false⟩).trace ++ body,
          ?_, ?_⟩
        · simp [hb]
        · simp [hnb, hnm]
      · right
        refine ⟨hs, ?_⟩
        simp [hnb, hnm]
    · left; exact ⟨rfl, [], rfl, by simp⟩

theorem split_unique {α : Type} {x : α} {a b : List α} (hb : x ∉ b) (ha : x ∉ a) :
    ∀ pre post : List α, a ++ x :: b = pre ++ x :: post → pre = a ∧ post = b := by
  induction a with
  | nil =>
    intro pre post h
    cases pre with
    | nil => simp at h; exact ⟨rfl, h.symm⟩
    | cons p pre =>
      simp at h
      exact absurd (h.2 ▸ (by simp : x ∈ pre ++ x :: post)) hb
  | cons y a ih =>
    intro pre post h
    cases pre with
    | nil =>
      simp at h
      exact absurd h.1 (by intro hxy; exact ha (by simp [hxy]))
    | cons p pre =>
      simp at h
      have := ih (by intro hx; exact ha (by simp [hx])) pre post h.2
      exact ⟨by rw [this.1, h.1], this.2⟩

theorem init_bufferOps (env : Env) (v f : String)
    (hv : env.vshaderText = some v) (hf : env.fshaderText = some f) :
    bufferOps (init env).trace =
      [BufferOp.allocate (triangle_bytes * triangle_color_bytes) none,
        BufferOp.upload 0 triangle_bytes (bytesOfVec2s triangle),
        BufferOp.upload triangle_bytes triangle_color_bytes (bytesOfVec3s triangle_colors)] := by
  rw [init_of_sources env v f hv hf]
  cases env.vertexCompiled <;> cases env.fragmentCompiled <;> cases env.linked <;>
    simp [bufferOps, check_shader_compilation, check_program_link, bufferOpOf]

theorem init_uploads (env : Env) (v f : String)
    (hv : env.vshaderText = some v) (hf : env.fshaderText = some f) :
    uploads (init env).trace = [(0, triangle_bytes), (triangle_bytes, triangle_color_bytes)] := by
  rw [init_of_sources env v f hv hf]
  cases env.vertexCompiled <;> cases env.fragmentCompiled <;> cases env.linked <;>
    simp [uploads, check_shader_compilation, check_program_link, uploadOf]

theorem init_allocations (env : Env) (v f : String)
    (hv : env.vshaderText = some v) (hf : env.fshaderText = some f) :
    allocations (init env).trace = [triangle_bytes * triangle_color_bytes] := by
  rw [init_of_sources env v f hv hf]
  cases env.vertexCompiled <;> cases env.fragmentCompiled <;> cases env.linked <;>
    simp [allocations, check_shader_compilation, check_program_link, allocationOf]

theorem init_attribPointers (env : Env) (v f : String)
    (hv : env.vshaderText = some v) (hf : env.fshaderText = some f) :
    attribPointers (init env).trace =
      [(toGLuint env.vposLocation, 2, GLenum.GL_FLOAT, false, 0, BUFFER_OFFSET 0),
        (toGLuint env.vcolorLocation, 3, GLenum.GL_FLOAT, false, 0,
          BUFFER_OFFSET triangle_bytes)] := by
  rw [init_of_sources env v f hv hf]
  cases env.vertexCompiled <;> cases env.fragmentCompiled <;> cases env.linked <;>
    simp [attribPointers, check_shader_compilation, check_program_link, attribPointerOf]

theorem init_attribLocations (env : Env) (v f : String)
    (hv : env.vshaderText = some v) (hf : env.fshaderText = some f) :
    attribLocations (init env).trace =
      [("vPos", env.vposLocation), ("vColor", env.vcolorLocation)] := by
  rw [init_of_sources env v f hv hf]
  cases env.vertexCompiled <;> cases env.fragmentCompiled <;> cases env.linked <;>
    simp [attribLocations, check_shader_compilation, check_program_link, attribLocationOf]

set_option maxRecDepth 100000 in
theorem store_after_uploads :
    ∃ bytes,
      [BufferOp.allocate (triangle_bytes * triangle_color_bytes) none,
        BufferOp.upload 0 triangle_bytes (bytesOfVec2s triangle),
        BufferOp.upload triangle_bytes triangle_color_bytes
          (bytesOfVec3s triangle_colors)].foldl bufferStep none = some bytes ∧
      bytes.length = triangle_bytes * triangle_color_bytes ∧
      readVec2s 3 (readBack bytes 0 triangle_bytes) =
        some [⟨-1, -1⟩, ⟨0, 1⟩, ⟨1, -1⟩] ∧
      readVec3s 3 (readBack bytes triangle_bytes triangle_color_bytes) =
        some [⟨0, 0, 1⟩, ⟨1, 0, 0⟩, ⟨0, 1, 0⟩] :=
  ⟨_, rfl, by decide, by decide, by decide⟩

theorem init_link_order (env : Env) (v f : String)
    (hv : env.vshaderText = some v) (hf : env.fshaderText = some f) :
    occursBefore (isLink env.programId) (isBindFragColor env.programId) (init env).trace = true ∧
      occursBefore (isBindFragColor env.programId) (isLink env.programId) (init env).trace
        = false := by
  rw [init_of_sources env v f hv hf]
  cases env.vertexCompiled <;> cases env.fragmentCompiled <;> cases env.linked <;>
    simp [occursBefore, firstIndex, isLink, isBindFragColor, check_shader_compilation,
      check_program_link]

theorem quiet_loop_iterations (h : Handles) (n : Nat) :
    iterations (renderLoop h (List.replicate n quietFrame) ⟨false⟩).trace = n := by
  induction n with
  | zero => simp [renderLoop, iterations]
  | succ n ih =>
    rw [List.replicate_succ, renderLoop_cons]
    have hq : (dispatchEvents quietFrame.events ⟨false⟩).2 = ⟨false⟩ := rfl
    rw [hq]
    simp only [List.cons_append, iterations_cons_check, iterations_append, loopBody_iterations, ih]
    omega

theorem main_iterations (env : Env) :
    iterations (main env).trace =
      if reachesLoop env = true then iterations (mainLoop env).trace else 0 := by
  unfold iterations
  rw [main_filterMap pollOf (by intro c hc; cases c <;> first | rfl | simp [isLoopCall] at hc)]
  split <;> simp

theorem main_closeChecks_setup (c : Call) (hc : isLoopCall c = false) : closeCheckOf c = none := by
  cases c <;> first | rfl | simp [isLoopCall] at hc

theorem main_draws_setup (c : Call) (hc : isLoopCall c = false) : drawOf c = none := by
  cases c <;> first | rfl | simp [isLoopCall] at hc

theorem main_viewports_setup (c : Call) (hc : isLoopCall c = false) : viewportOf c = none := by
  cases c <;> first | rfl | simp [isLoopCall] at hc

theorem main_sizes_setup (c : Call) (hc : isLoopCall c = false) :
    framebufferSizeOf c = none := by
  cases c <;> first | rfl | simp [isLoopCall] at hc

theorem not_mem_of_setup (t : List Call) (ht : t.all (fun c => !isLoopCall c) = true) :
    Call.glfwWindowShouldClose true ∉ t := by
  intro hm
  rw [List.all_eq_true] at ht
  have := ht _ hm
  simp [isLoopCall] at this

/-- In a run of `main`, whatever follows a should-close check that answered
true is the shutdown sequence. -/
theorem main_after_close (env : Env) (pre post : List Call)
    (hsplit : (main env).trace = pre ++ Call.glfwWindowShouldClose true :: post) :
    post = shutdown := by
  have hmem : Call.glfwWindowShouldClose true ∈ (main env).trace := by
    rw [hsplit]; simp
  cases hgl : env.glfwInitOk with
  | false =>
    rw [main_no_glfw env hgl] at hmem
    simp at hmem
  | true =>
    cases hw : env.windowOk with
    | false =>
      rw [main_no_window env hgl hw] at hmem
      simp at hmem
    | true =>
      have hst := not_mem_of_setup startup rfl
      have hin := not_mem_of_setup (init env).trace (init_setup_all env)
      have hsh := not_mem_of_setup shutdown rfl
      rcases init_status env with hi | hi
      · rw [main_enters_loop env hgl hw hi] at hsplit hmem
        rcases renderLoop_close_last ⟨env.programId, env.vaoId⟩ env.frames
          ⟨env.initialShouldClose⟩ with ⟨hs, body, hb, hnm⟩ | ⟨hs, hnm⟩
        · have hs2 : (mainLoop env).status = Status.ret () := hs
          have hb2 : (mainLoop env).trace = body ++ [Call.glfwWindowShouldClose true] := hb
          simp only [hs2, hb2, if_true] at hsplit
          have hpre : Call.glfwWindowShouldClose true ∉
              startup ++ (init env).trace ++ [Call.glClearColor 1 1 1 1] ++ body := by
            simp [hst, hin, hnm]
          have := split_unique hsh hpre pre post (by simpa using hsplit)
          exact this.2
        · have hs2 : (mainLoop env).status = Status.running := hs
          have hnm2 : Call.glfwWindowShouldClose true ∉ (mainLoop env).trace := hnm
          simp [hs2, hst, hin, hnm2] at hmem
      · rw [main_init_exits env hgl hw hi] at hmem
        simp [hst, hin] at hmem

theorem reachesLoop_iff (env : Env) :
    reachesLoop env = true ↔
      env.glfwInitOk = true ∧ env.windowOk = true ∧
        (init env).status = Status.ret ⟨env.programId, env.vaoId⟩ := by
  rw [init_ret_iff]
  simp [reachesLoop, and_assoc]

theorem main_of_reachesLoop (env : Env) (hr : reachesLoop env = true) :
    main env =
      ⟨startup ++ (init env).trace ++ [Call.glClearColor 1 1 1 1] ++ (mainLoop env).trace
        ++ (if (mainLoop env).status = Status.ret () then shutdown else []),
      if (mainLoop env).status = Status.ret () then Status.exited EXIT_SUCCESS
      else Status.running⟩ := by
  obtain ⟨hg, hw, hi⟩ := (reachesLoop_iff env).1 hr
  exact main_enters_loop env hg hw hi

theorem main_status_of_not_reachesLoop (env : Env) (hr : reachesLoop env = false) :
    (main env).status = Status.exited EXIT_FAILURE := by
  cases hgl : env.glfwInitOk with
  | false => rw [main_no_glfw env hgl]
  | true =>
    cases hw : env.windowOk with
    | false => rw [main_no_window env hgl hw]
    | true =>
      rcases init_status env with hi | hi
      · have := (reachesLoop_iff env).2 ⟨hgl, hw, hi⟩
        rw [hr] at this
        exact absurd this (by simp)
      · rw [main_init_exits env hgl hw hi]

theorem main_closeChecks (env : Env) :
    closeChecks (main env).trace =
      List.replicate (iterations (main env).trace) false ++
        (if (main env).status = Status.exited EXIT_SUCCESS then [true] else []) := by
  rw [main_iterations]
  unfold closeChecks
  rw [main_filterMap closeCheckOf main_closeChecks_setup]
  cases hr : reachesLoop env with
  | false =>
    have hs := main_status_of_not_reachesLoop env hr
    simp [hs, EXIT_SUCCESS, EXIT_FAILURE]
  | true =>
    have hl := renderLoop_closeChecks ⟨env.programId, env.vaoId⟩ env.frames
      ⟨env.initialShouldClose⟩
    have hm := main_of_reachesLoop env hr
    simp only [closeChecks] at hl
    simp only [if_true, mainLoop, hl]
    rw [hm]
    rcases renderLoop_status ⟨env.programId, env.vaoId⟩ env.frames ⟨env.initialShouldClose⟩
      with hs | hs <;> simp [mainLoop, hs]

theorem main_draws (env : Env) :
    draws (main env).trace =
      List.replicate (iterations (main env).trace) (GLenum.GL_TRIANGLES, 0, 3) := by
  rw [main_iterations]
  unfold draws
  rw [main_filterMap drawOf main_draws_setup]
  cases hr : reachesLoop env with
  | false => simp
  | true =>
    have hl := renderLoop_draws ⟨env.programId, env.vaoId⟩ env.frames
      ⟨env.initialShouldClose⟩
    simp only [draws] at hl
    simp only [if_true, mainLoop, hl]

theorem main_viewports (env : Env) :
    viewports (main env).trace =
      (framebufferSizes (main env).trace).map (fun s => (0, 0, s.1, s.2)) := by
  unfold viewports framebufferSizes
  rw [main_filterMap viewportOf main_viewports_setup,
    main_filterMap framebufferSizeOf main_sizes_setup]
  cases hr : reachesLoop env with
  | false => simp
  | true =>
    have hl := renderLoop_viewports ⟨env.programId, env.vaoId⟩ env.frames
      ⟨env.initialShouldClose⟩
    simp only [viewports, framebufferSizes] at hl
    simp only [if_true, mainLoop, hl]

theorem main_framebufferSizes (env : Env) :
    framebufferSizes (main env).trace =
      (env.frames.take (iterations (main env).trace)).map (fun f => (f.width, f.height)) := by
  rw [main_iterations]
  unfold framebufferSizes
  rw [main_filterMap framebufferSizeOf main_sizes_setup]
  cases hr : reachesLoop env with
  | false => simp
  | true =>
    have hl := renderLoop_framebufferSizes ⟨env.programId, env.vaoId⟩ env.frames
      ⟨env.initialShouldClose⟩
    simp only [framebufferSizes] at hl
    simp only [if_true, mainLoop, hl]

/-! ## The claims -/

/-- C1 (evidence of the defect): in the run `badVertexEnv` the vertex shader
fails to compile, `check_shader_compilation` reports it, and `main` still
enters the render loop: it clears, draws and swaps twice before the user
presses the exit key, and ends with the success status. -/
theorem compile_failure_still_renders :
    badVertexEnv.vertexCompiled = false ∧
      Call.check_shader_compilation "shaders/vshader.glsl" 1 false
        ∈ (main badVertexEnv).trace ∧
      renderCalls (main badVertexEnv).trace =
        [Call.glClear GLenum.GL_COLOR_BUFFER_BIT, Call.glDrawArrays GLenum.GL_TRIANGLES 0 3,
          Call.glfwSwapBuffers,
          Call.glClear GLenum.GL_COLOR_BUFFER_BIT, Call.glDrawArrays GLenum.GL_TRIANGLES 0 3,
          Call.glfwSwapBuffers] ∧
      (main badVertexEnv).status = Status.exited EXIT_SUCCESS := by
  refine ⟨rfl, by decide, by decide, by decide⟩

/-- C2 (evidence of the defect): whenever `init` returns, `glLinkProgram` on
the program handle is issued before `glBindFragDataLocation(program, 0,
"fragColor")`, and the binding is not issued before the link. -/
theorem frag_binding_after_link (env : Env) (h : Handles)
    (hret : (init env).status = Status.ret h) :
    occursBefore (isLink env.programId) (isBindFragColor env.programId) (init env).trace = true ∧
      occursBefore (isBindFragColor env.programId) (isLink env.programId) (init env).trace
        = false := by
  obtain ⟨v, f, hv, hf⟩ := init_sources_of_ret env h hret
  exact init_link_order env v f hv hf

/-- C2, at the run `goodEnv []`: the link precedes the binding. -/
theorem frag_binding_after_link_witness :
    (init (goodEnv [])).status = Status.ret ⟨3, 1⟩ ∧
      occursBefore (isLink 3) (isBindFragColor 3) (init (goodEnv [])).trace = true ∧
      occursBefore (isBindFragColor 3) (isLink 3) (init (goodEnv [])).trace = false :=
  ⟨rfl, frag_binding_after_link (goodEnv []) ⟨3, 1⟩ rfl⟩

/-- C3 as stated fails: the signed area of the triangle on vertices 0, 1, 2
of `triangle` is not strictly positive. -/
theorem triangle_not_counter_clockwise :
    ¬ ∃ a, windingArea triangle = some a ∧ 0 < a := by
  decide

/-- C3 as amended: the fixed positions are (-1,-1), (0,1), (1,-1), and the
signed area `(x1-x0)*(y2-y0) - (x2-x0)*(y1-y0)` of vertices 0, 1, 2 in order is
-4, strictly negative: the winding is clockwise. -/
theorem triangle_clockwise :
    triangle = [⟨-1, -1⟩, ⟨0, 1⟩, ⟨1, -1⟩] ∧
      windingArea triangle = some (-4) ∧
      ∃ a, windingArea triangle = some a ∧ a < 0 :=
  ⟨rfl, by decide, -4, by decide, by decide⟩

/-- C4: after `init` the buffer holds the 3 positions (-1,-1), (0,1), (1,-1)
in the sub-range uploaded at offset 0 and the 3 colors (0,0,1), (1,0,0),
(0,1,0) in the sub-range uploaded after it; the two uploaded ranges share no
byte, and both are intact once both uploads are done. -/
theorem init_buffer_contents (env : Env) (h : Handles)
    (hret : (init env).status = Status.ret h) :
    uploads (init env).trace = [(0, triangle_bytes), (triangle_bytes, triangle_color_bytes)] ∧
      rangesDisjoint (0, triangle_bytes) (triangle_bytes, triangle_color_bytes) ∧
      ∃ bytes, bufferAfter (init env).trace = some bytes ∧
        readVec2s 3 (readBack bytes 0 triangle_bytes) =
          some [⟨-1, -1⟩, ⟨0, 1⟩, ⟨1, -1⟩] ∧
        readVec3s 3 (readBack bytes triangle_bytes triangle_color_bytes) =
          some [⟨0, 0, 1⟩, ⟨1, 0, 0⟩, ⟨0, 1, 0⟩] := by
  obtain ⟨v, f, hv, hf⟩ := init_sources_of_ret env h hret
  refine ⟨init_uploads env v f hv hf, Or.inl (Nat.le_of_eq (Nat.zero_add _)), ?_⟩
  obtain ⟨bytes, hb, _, hp, hc⟩ := store_after_uploads
  exact ⟨bytes, by rw [bufferAfter, init_bufferOps env v f hv hf, hb], hp, hc⟩

/-- C4, at the run `goodEnv []`. -/
theorem init_buffer_contents_witness :
    (init (goodEnv [])).status = Status.ret ⟨3, 1⟩ ∧
      ∃ bytes, bufferAfter (init (goodEnv [])).trace = some bytes ∧
      readVec2s 3 (readBack bytes 0 triangle_bytes) =
        some [⟨-1, -1⟩, ⟨0, 1⟩, ⟨1, -1⟩] ∧
      readVec3s 3 (readBack bytes triangle_bytes triangle_color_bytes) =
        some [⟨0, 0, 1⟩, ⟨1, 0, 0⟩, ⟨0, 1, 0⟩] :=
  ⟨rfl, (init_buffer_contents (goodEnv []) ⟨3, 1⟩ rfl).2.2⟩

/-- C5: `init` uploads the colors at byte offset `triangle_bytes`, which is the
size of 3 two-component float positions, 3 * 2 * 4 = 24, the end of the
position sub-range; the attribute found under the name `vColor` is bound with
3 float components, stride 0, at that same offset, and the attribute found
under `vPos` with 2 float components at offset 0. -/
theorem color_offset_is_position_size (env : Env) (h : Handles)
    (hret : (init env).status = Status.ret h) :
    triangle_bytes = 3 * (2 * sizeof_GLfloat) ∧ triangle_bytes = 24 ∧
      uploads (init env).trace = [(0, 24), (24, triangle_color_bytes)] ∧
      attribLocations (init env).trace =
        [("vPos", env.vposLocation), ("vColor", env.vcolorLocation)] ∧
      attribPointers (init env).trace =
        [(toGLuint env.vposLocation, 2, GLenum.GL_FLOAT, false, 0, 0),
          (toGLuint env.vcolorLocation, 3, GLenum.GL_FLOAT, false, 0, 24)] := by
  obtain ⟨v, f, hv, hf⟩ := init_sources_of_ret env h hret
  exact ⟨rfl, rfl, init_uploads env v f hv hf, init_attribLocations env v f hv hf,
    init_attribPointers env v f hv hf⟩

/-- C5, at the run `goodEnv []`. -/
theorem color_offset_is_position_size_witness :
    (init (goodEnv [])).status = Status.ret ⟨3, 1⟩ ∧
      uploads (init (goodEnv [])).trace = [(0, 24), (24, 36)] ∧
      attribPointers (init (goodEnv [])).trace =
        [(0, 2, GLenum.GL_FLOAT, false, 0, 0), (1, 3, GLenum.GL_FLOAT, false, 0, 24)] :=
  ⟨rfl, (color_offset_is_position_size (goodEnv []) ⟨3, 1⟩ rfl).2.2.1,
    (color_offset_is_position_size (goodEnv []) ⟨3, 1⟩ rfl).2.2.2.2⟩

/-- C6: the one size `init` gives `glBufferData` is at least the position
sub-range size plus the color sub-range size, and each of the two uploads ends
inside the allocated size. -/
theorem allocation_covers_uploads (env : Env) (h : Handles)
    (hret : (init env).status = Status.ret h) :
    ∃ total, allocations (init env).trace = [total] ∧
      triangle_bytes + triangle_color_bytes ≤ total ∧
      uploads (init env).trace = [(0, triangle_bytes), (triangle_bytes, triangle_color_bytes)] ∧
      ∀ u ∈ uploads (init env).trace, u.1 + u.2 ≤ total := by
  obtain ⟨v, f, hv, hf⟩ := init_sources_of_ret env h hret
  refine ⟨triangle_bytes * triangle_color_bytes, init_allocations env v f hv hf, by decide,
    init_uploads env v f hv hf, ?_⟩
  rw [init_uploads env v f hv hf]
  intro u hu
  simp only [List.mem_cons, List.mem_singleton, List.not_mem_nil, or_false] at hu
  rcases hu with rfl | rfl <;> decide

/-- C6, at the run `goodEnv []`: 864 bytes are allocated, 60 are needed. -/
theorem allocation_covers_uploads_witness :
    (init (goodEnv [])).status = Status.ret ⟨3, 1⟩ ∧
      ∃ total, allocations (init (goodEnv [])).trace = [total] ∧ 24 + 36 ≤ total :=
  ⟨rfl,
    (allocation_covers_uploads (goodEnv []) ⟨3, 1⟩ rfl).imp fun _ hx => ⟨hx.1, hx.2.1⟩⟩

/-- C7: the render loop checks the should-close flag first thing in every
iteration: a check that answers true ends the loop with no further call, a
check that answers false is followed by the body of that iteration; a run of
`main` makes one check per completed iteration plus the final one; whatever
follows a check that answered true is exactly window destruction, host
shutdown and exit, with no draw call; and when the flag is already up at the
first check, `main` issues no draw call and goes straight from setup to the
shutdown sequence. -/
theorem no_draw_after_close (env : Env) :
    (∀ h frames,
        renderLoop h frames ⟨true⟩ = ⟨[Call.glfwWindowShouldClose true], Status.ret ()⟩) ∧
      (∀ h frame rest,
        (renderLoop h (frame :: rest) ⟨false⟩).trace =
          Call.glfwWindowShouldClose false :: (loopBody h frame ⟨false⟩).trace ++
            (renderLoop h rest (dispatchEvents frame.events ⟨false⟩).2).trace) ∧
      closeChecks (main env).trace =
        List.replicate (iterations (main env).trace) false ++
          (if (main env).status = Status.exited EXIT_SUCCESS then [true] else []) ∧
      (∀ pre post, (main env).trace = pre ++ Call.glfwWindowShouldClose true :: post →
        post = [Call.glfwDestroyWindow, Call.glfwTerminate, Call.exit EXIT_SUCCESS] ∧
          draws post = []) ∧
      (reachesLoop env = true → env.initialShouldClose = true →
        draws (main env).trace = [] ∧ iterations (main env).trace = 0 ∧
          (main env).trace =
            (startup ++ (init env).trace ++ [Call.glClearColor 1 1 1 1]) ++
              Call.glfwWindowShouldClose true ::
                [Call.glfwDestroyWindow, Call.glfwTerminate, Call.exit EXIT_SUCCESS] ∧
          (main env).status = Status.exited EXIT_SUCCESS) := by
  refine ⟨renderLoop_closed, ?_, main_closeChecks env, ?_, ?_⟩
  · intro h frame rest
    rw [renderLoop_cons]
  · intro pre post hsplit
    have := main_after_close env pre post hsplit
    subst this
    exact ⟨rfl, rfl⟩
  · intro hr hc
    have hl : mainLoop env = ⟨[Call.glfwWindowShouldClose true], Status.ret ()⟩ := by
      unfold mainLoop
      rw [hc]
      exact renderLoop_closed _ _
    refine ⟨?_, ?_, ?_, ?_⟩
    · unfold draws
      rw [main_filterMap drawOf main_draws_setup, hl]
      simp [hr, drawOf]
    · rw [main_iterations, hl]
      simp [iterations, pollOf]
    · rw [main_of_reachesLoop env hr, hl]
      simp [shutdown]
    · rw [main_of_reachesLoop env hr, hl]
      simp

/-- C7, at concrete runs: in `closedEnv` the flag is up before the first
iteration, and `main` issues no draw call and exits with success; in
`goodEnv [escapeFrame]` Escape is pressed during the first frame, the second
check answers true (call 55 of the trace, counting from 0), and what follows it is the
shutdown sequence. -/
theorem no_draw_after_close_witness :
    reachesLoop closedEnv = true ∧ closedEnv.initialShouldClose = true ∧
      draws (main closedEnv).trace = [] ∧
      (main closedEnv).status = Status.exited EXIT_SUCCESS ∧
      (main (goodEnv [escapeFrame])).trace =
        (main (goodEnv [escapeFrame])).trace.take 55 ++
          Call.glfwWindowShouldClose true :: (main (goodEnv [escapeFrame])).trace.drop 56 ∧
      (main (goodEnv [escapeFrame])).trace.drop 56 =
        [Call.glfwDestroyWindow, Call.glfwTerminate, Call.exit EXIT_SUCCESS] :=
  ⟨rfl, rfl, ((no_draw_after_close closedEnv).2.2.2.2 rfl rfl).1,
    ((no_draw_after_close closedEnv).2.2.2.2 rfl rfl).2.2.2,
    by decide,
    ((no_draw_after_close (goodEnv [escapeFrame])).2.2.2.1
      ((main (goodEnv [escapeFrame])).trace.take 55)
      ((main (goodEnv [escapeFrame])).trace.drop 56) (by decide)).1⟩

/-- C8: the body of the render loop issues exactly one draw call,
`glDrawArrays(GL_TRIANGLES, 0, 3)`, and completes one iteration; in every run of
`main` the draw calls are that same call once per completed iteration; and a
run of `n` quiet frames completes `n` iterations and issues `n` draw calls. -/
theorem one_draw_per_iteration :
    (∀ h frame w, draws (loopBody h frame w).trace = [(GLenum.GL_TRIANGLES, 0, 3)] ∧
        iterations (loopBody h frame w).trace = 1) ∧
      (∀ env, draws (main env).trace =
        List.replicate (iterations (main env).trace) (GLenum.GL_TRIANGLES, 0, 3)) ∧
      (∀ n, iterations (main (goodEnv (List.replicate n quietFrame))).trace = n ∧
        (draws (main (goodEnv (List.replicate n quietFrame))).trace).length = n) := by
  refine ⟨fun h frame w => ⟨loopBody_draws h frame w, loopBody_iterations h frame w⟩,
    main_draws, ?_⟩
  intro n
  have hi : iterations (main (goodEnv (List.replicate n quietFrame))).trace = n := by
    rw [main_iterations]
    have hr : reachesLoop (goodEnv (List.replicate n quietFrame)) = true := rfl
    rw [hr]
    exact quiet_loop_iterations _ n
  refine ⟨hi, ?_⟩
  rw [main_draws, hi, List.length_replicate]

/-- C9: the body of the render loop starts by querying the framebuffer size and
setting the viewport at offset (0,0) to exactly the size the query returned,
and sets no other viewport; in every run of `main` the viewports set are,
iteration by iteration, the sizes queried, which are the sizes the platform
reported for those iterations, whether or not they change from one iteration
to the next. -/
theorem viewport_follows_framebuffer :
    (∀ h frame w, ∃ rest,
        (loopBody h frame w).trace =
          Call.glfwGetFramebufferSize frame.width frame.height ::
            Call.glViewport 0 0 frame.width frame.height :: rest ∧
        viewports rest = [] ∧ framebufferSizes rest = []) ∧
      (∀ env, viewports (main env).trace =
        (framebufferSizes (main env).trace).map (fun s => (0, 0, s.1, s.2))) ∧
      (∀ env, framebufferSizes (main env).trace =
        (env.frames.take (iterations (main env).trace)).map (fun f => (f.width, f.height))) := by
  refine ⟨?_, main_viewports, main_framebufferSizes⟩
  intro h frame w
  have hv := loopBody_viewports h frame w
  have hf := loopBody_framebufferSizes h frame w
  rw [loopBody_eq] at hv hf ⊢
  refine ⟨_, rfl, ?_, ?_⟩
  · simpa [viewports, viewportOf] using hv
  · simpa [framebufferSizes, framebufferSizeOf] using hf

/-- C10: `key_callback` raises the should-close flag exactly when the key is
Escape and the action is a press; for any other key or action, in particular
release and repeat of Escape, it issues no call and leaves the window as it
was; scancode and mods play no part. -/
theorem key_callback_escape_press (w : Window) (key scancode action mods : Int) :
    (key = GLFW_KEY_ESCAPE ∧ action = GLFW_PRESS →
        key_callback w key scancode action mods =
          ([Call.glfwSetWindowShouldClose true], ⟨true⟩)) ∧
      (¬ (key = GLFW_KEY_ESCAPE ∧ action = GLFW_PRESS) →
        key_callback w key scancode action mods = ([], w)) ∧
      (Call.glfwSetWindowShouldClose true ∈ (key_callback w key scancode action mods).1 ↔
        key = GLFW_KEY_ESCAPE ∧ action = GLFW_PRESS) ∧
      key_callback w GLFW_KEY_ESCAPE scancode GLFW_RELEASE mods = ([], w) ∧
      key_callback w GLFW_KEY_ESCAPE scancode GLFW_REPEAT mods = ([], w) ∧
      key_callback w key scancode action mods = key_callback w key 0 action 0 := by
  refine ⟨?_, ?_, ?_, ?_, ?_, rfl⟩
  · intro hk
    simp [key_callback, hk, glfwSetWindowShouldClose]
  · intro hk
    simp [key_callback, hk]
  · by_cases hk : key = GLFW_KEY_ESCAPE ∧ action = GLFW_PRESS
    · simp [key_callback, hk, glfwSetWindowShouldClose]
    · simp [key_callback, hk]
  · simp [key_callback, GLFW_RELEASE, GLFW_PRESS]
  · simp [key_callback, GLFW_REPEAT, GLFW_PRESS]

/-- C10, at concrete events: pressing Escape raises the flag of an open
window, pressing another key does not. -/
theorem key_callback_escape_press_witness :
    key_callback ⟨false⟩ 256 9 1 0 = ([Call.glfwSetWindowShouldClose true], ⟨true⟩) ∧
      key_callback ⟨false⟩ 65 38 1 0 = ([], ⟨false⟩) :=
  ⟨(key_callback_escape_press ⟨false⟩ 256 9 1 0).1 ⟨rfl, rfl⟩,
    (key_callback_escape_press ⟨false⟩ 65 38 1 0).2.1 (by decide)⟩

end Triangle
